import Mathlib

/-!
# Verification of the helios consensus light-client types

A shallow embedding of `src/consensus/src/types/mod.rs` (the structured
record model, the fork-variant record types, the `GenericUpdate`
normalisation, and the dual serde/bcs codec layer), together with
spec-modelled components for the parts of the crate that live outside the
`types` module (the bcs binary codec, the serde-derive field-name
semantics, the superstruct partial-field accessors, and the
`ConsensusStateManager.apply_update` verification pipeline).

Machine integers (`u64`, `U64`, `U256`) are modelled as `Nat`: the embedded
code only copies and compares them, so no overflow behaviour is observable.
Bytes (`u8`) are modelled as `Nat`; fixed- and bounded-length byte
containers carry their length invariant in a subtype, mirroring the
type-level size parameters of `ssz_rs`.
-/

set_option maxRecDepth 8192

namespace Helios

/-- `ssz_rs::ByteVector<N>`: a byte vector of exactly `N` bytes. -/
abbrev ByteVector (n : Nat) := {l : List Nat // l.length = n}

/-- `ssz_rs::ByteList<N>`: a byte list of at most `N` bytes. -/
abbrev ByteList (n : Nat) := {l : List Nat // l.length ≤ n}

/-- `ssz_rs::List<T, N>`: a variable-length list holding at most `N` elements. -/
abbrev SSZList (α : Type) (n : Nat) := {l : List α // l.length ≤ n}

/-- `ssz_rs::Vector<T, N>`: a fixed-length vector of exactly `N` elements. -/
abbrev SSZVector (α : Type) (n : Nat) := {l : List α // l.length = n}

/-- `ssz_rs::Bitvector<N>`: a fixed-length bit vector of exactly `N` bits. -/
abbrev Bitvector (n : Nat) := {l : List Bool // l.length = n}

/-- `ssz_rs::Bitlist<N>`: a variable-length bit list of at most `N` bits. -/
abbrev Bitlist (n : Nat) := {l : List Bool // l.length ≤ n}

/-- `type Address = ByteVector<20>` -/
abbrev Address := ByteVector 20

/-- `type Bytes32 = ByteVector<32>` -/
abbrev Bytes32 := ByteVector 32

/-- `type LogsBloom = ByteVector<256>` -/
abbrev LogsBloom := ByteVector 256

/-- `type BLSPubKey = ByteVector<48>` -/
abbrev BLSPubKey := ByteVector 48

/-- `type SignatureBytes = ByteVector<96>` -/
abbrev SignatureBytes := ByteVector 96

/-- `type Transaction = ByteList<1073741824>` -/
abbrev Transaction := ByteList 1073741824

/-- `U64` of `ssz_rs`, modelled as `Nat` (only copied and compared here). -/
abbrev U64 := Nat

/-- `U256` of `ssz_rs`, modelled as `Nat` (only copied here). -/
abbrev U256 := Nat

/-- Default value of a `ByteVector n`: `n` zero bytes (`derive(Default)`). -/
def ByteVector.default (n : Nat) : ByteVector n := ⟨List.replicate n 0, by simp⟩

/-- Default value of a `ByteList n`: the empty list (`derive(Default)`). -/
def ByteList.default (n : Nat) : ByteList n := ⟨[], by simp⟩

/-- Default value of an `SSZList α n`: the empty list (`derive(Default)`). -/
def SSZList.default (α : Type) (n : Nat) : SSZList α n := ⟨[], by simp⟩

/-- Default value of an `SSZVector α n`: `n` copies of the element default. -/
def SSZVector.default (α : Type) (n : Nat) (d : α) : SSZVector α n :=
  ⟨List.replicate n d, by simp⟩

/-- Default value of a `Bitvector n`: `n` zero bits (`derive(Default)`). -/
def Bitvector.default (n : Nat) : Bitvector n := ⟨List.replicate n false, by simp⟩

/-- `struct Eth1Data` (`types/mod.rs:221-226`). -/
structure Eth1Data where
  deposit_root : Bytes32
  deposit_count : U64
  block_hash : Bytes32

/-- `derive(Default)` for `Eth1Data`. -/
def Eth1Data.default : Eth1Data :=
  { deposit_root := ByteVector.default 32, deposit_count := 0
    block_hash := ByteVector.default 32 }

/-- `struct BeaconBlockHeader` (`types/mod.rs:151-158`). -/
structure BeaconBlockHeader where
  slot : U64
  proposer_index : U64
  parent_root : Bytes32
  state_root : Bytes32
  body_root : Bytes32

/-- `derive(Default)` for `BeaconBlockHeader`. -/
def BeaconBlockHeader.default : BeaconBlockHeader :=
  { slot := 0, proposer_index := 0, parent_root := ByteVector.default 32
    state_root := ByteVector.default 32, body_root := ByteVector.default 32 }

/-- `struct SignedBeaconBlockHeader` (`types/mod.rs:145-149`). -/
structure SignedBeaconBlockHeader where
  message : BeaconBlockHeader
  signature : SignatureBytes

/-- `derive(Default)` for `SignedBeaconBlockHeader`. -/
def SignedBeaconBlockHeader.default : SignedBeaconBlockHeader :=
  { message := BeaconBlockHeader.default, signature := ByteVector.default 96 }

/-- `struct ProposerSlashing` (`types/mod.rs:139-143`). -/
structure ProposerSlashing where
  signed_header_1 : SignedBeaconBlockHeader
  signed_header_2 : SignedBeaconBlockHeader

/-- `struct Checkpoint` (`types/mod.rs:189-193`). -/
structure Checkpoint where
  epoch : U64
  root : Bytes32

/-- `struct AttestationData` (`types/mod.rs:180-187`). -/
structure AttestationData where
  slot : U64
  index : U64
  beacon_block_root : Bytes32
  source : Checkpoint
  target : Checkpoint

/-- `struct IndexedAttestation` (`types/mod.rs:166-171`). -/
structure IndexedAttestation where
  attesting_indices : SSZList U64 2048
  data : AttestationData
  signature : SignatureBytes

/-- `struct AttesterSlashing` (`types/mod.rs:160-164`). -/
structure AttesterSlashing where
  attestation_1 : IndexedAttestation
  attestation_2 : IndexedAttestation

/-- `struct Attestation` (`types/mod.rs:173-178`). -/
structure Attestation where
  aggregation_bits : Bitlist 2048
  data : AttestationData
  signature : SignatureBytes

/-- `struct VoluntaryExit` (`types/mod.rs:201-205`). -/
structure VoluntaryExit where
  epoch : U64
  validator_index : U64

/-- `struct SignedVoluntaryExit` (`types/mod.rs:195-199`). -/
structure SignedVoluntaryExit where
  message : VoluntaryExit
  signature : SignatureBytes

/-- `struct DepositData` (`types/mod.rs:213-219`). -/
structure DepositData where
  pubkey : BLSPubKey
  withdrawal_credentials : Bytes32
  amount : U64
  signature : SignatureBytes

/-- `struct Deposit` (`types/mod.rs:207-211`). -/
structure Deposit where
  proof : SSZVector Bytes32 33
  data : DepositData

/-- `struct BlsToExecutionChange` (`types/mod.rs:76-81`). -/
structure BlsToExecutionChange where
  validator_index : U64
  from_bls_pubkey : BLSPubKey
  to_execution_address : Address

/-- `struct SignedBlsToExecutionChange` (`types/mod.rs:70-74`). -/
structure SignedBlsToExecutionChange where
  message : BlsToExecutionChange
  signature : SignatureBytes

/-- `struct Withdrawal` (`types/mod.rs:131-137`). -/
structure Withdrawal where
  index : U64
  validator_index : U64
  address : Address
  amount : U64

/-- `struct Header` (`types/mod.rs:303-310`). -/
structure Header where
  slot : U64
  proposer_index : U64
  parent_root : Bytes32
  state_root : Bytes32
  body_root : Bytes32
deriving DecidableEq

/-- `derive(Default)` for `Header`. -/
def Header.default : Header :=
  { slot := 0
    proposer_index := 0
    parent_root := ByteVector.default 32
    state_root := ByteVector.default 32
    body_root := ByteVector.default 32 }

/-- `struct SyncCommittee` (`types/mod.rs:312-316`). -/
structure SyncCommittee where
  pubkeys : SSZVector BLSPubKey 512
  aggregate_pubkey : BLSPubKey

/-- `derive(Default)` for `SyncCommittee`. -/
def SyncCommittee.default : SyncCommittee :=
  { pubkeys := SSZVector.default _ 512 (ByteVector.default 48)
    aggregate_pubkey := ByteVector.default 48 }

/-- `struct SyncAggregate` (`types/mod.rs:318-322`). -/
structure SyncAggregate where
  sync_committee_bits : Bitvector 512
  sync_committee_signature : SignatureBytes

/-- `derive(Default)` for `SyncAggregate`. -/
def SyncAggregate.default : SyncAggregate :=
  { sync_committee_bits := Bitvector.default 512
    sync_committee_signature := ByteVector.default 96 }

/-- The `Bellatrix` variant struct of `ExecutionPayload`
(`superstruct`, `types/mod.rs:83-121`): fourteen fields. -/
structure ExecutionPayloadBellatrix where
  parent_hash : Bytes32
  fee_recipient : Address
  state_root : Bytes32
  receipts_root : Bytes32
  logs_bloom : LogsBloom
  prev_randao : Bytes32
  block_number : U64
  gas_limit : U64
  gas_used : U64
  timestamp : U64
  extra_data : ByteList 32
  base_fee_per_gas : U256
  block_hash : Bytes32
  transactions : SSZList Transaction 1048576

/-- The `Capella` variant struct of `ExecutionPayload`: the Bellatrix
fields plus the trailing `withdrawals` field. -/
structure ExecutionPayloadCapella where
  parent_hash : Bytes32
  fee_recipient : Address
  state_root : Bytes32
  receipts_root : Bytes32
  logs_bloom : LogsBloom
  prev_randao : Bytes32
  block_number : U64
  gas_limit : U64
  gas_used : U64
  timestamp : U64
  extra_data : ByteList 32
  base_fee_per_gas : U256
  block_hash : Bytes32
  transactions : SSZList Transaction 1048576
  withdrawals : SSZList Withdrawal 16

/-- The `Deneb` variant struct of `ExecutionPayload`: the Capella fields
plus the trailing `blob_gas_used` and `excess_blob_gas` fields. -/
structure ExecutionPayloadDeneb where
  parent_hash : Bytes32
  fee_recipient : Address
  state_root : Bytes32
  receipts_root : Bytes32
  logs_bloom : LogsBloom
  prev_randao : Bytes32
  block_number : U64
  gas_limit : U64
  gas_used : U64
  timestamp : U64
  extra_data : ByteList 32
  base_fee_per_gas : U256
  block_hash : Bytes32
  transactions : SSZList Transaction 1048576
  withdrawals : SSZList Withdrawal 16
  blob_gas_used : U64
  excess_blob_gas : U64

/-- `enum ExecutionPayload` generated by `superstruct` with
`variants(Bellatrix, Capella, Deneb)` (`types/mod.rs:83-121`). -/
inductive ExecutionPayload where
  | bellatrix : ExecutionPayloadBellatrix → ExecutionPayload
  | capella : ExecutionPayloadCapella → ExecutionPayload
  | deneb : ExecutionPayloadDeneb → ExecutionPayload

/-- `derive(Default)` for `ExecutionPayloadBellatrix`. -/
def ExecutionPayloadBellatrix.default : ExecutionPayloadBellatrix :=
  { parent_hash := ByteVector.default 32
    fee_recipient := ByteVector.default 20
    state_root := ByteVector.default 32
    receipts_root := ByteVector.default 32
    logs_bloom := ByteVector.default 256
    prev_randao := ByteVector.default 32
    block_number := 0
    gas_limit := 0
    gas_used := 0
    timestamp := 0
    extra_data := ByteList.default 32
    base_fee_per_gas := 0
    block_hash := ByteVector.default 32
    transactions := SSZList.default _ 1048576 }

/-- `impl Default for ExecutionPayload` (`types/mod.rs:123-127`): the
`Bellatrix` variant with all fields defaulted. -/
def ExecutionPayload.default : ExecutionPayload :=
  ExecutionPayload.bellatrix ExecutionPayloadBellatrix.default

/-- The `Bellatrix` variant struct of `BeaconBlockBody`
(`superstruct`, `types/mod.rs:29-60`): ten fields. -/
structure BeaconBlockBodyBellatrix where
  randao_reveal : SignatureBytes
  eth1_data : Eth1Data
  graffiti : Bytes32
  proposer_slashings : SSZList ProposerSlashing 16
  attester_slashings : SSZList AttesterSlashing 2
  attestations : SSZList Attestation 128
  deposits : SSZList Deposit 16
  voluntary_exits : SSZList SignedVoluntaryExit 16
  sync_aggregate : SyncAggregate
  execution_payload : ExecutionPayload

/-- The `Capella` variant struct of `BeaconBlockBody`: the Bellatrix
fields plus the trailing `bls_to_execution_changes` field. -/
structure BeaconBlockBodyCapella where
  randao_reveal : SignatureBytes
  eth1_data : Eth1Data
  graffiti : Bytes32
  proposer_slashings : SSZList ProposerSlashing 16
  attester_slashings : SSZList AttesterSlashing 2
  attestations : SSZList Attestation 128
  deposits : SSZList Deposit 16
  voluntary_exits : SSZList SignedVoluntaryExit 16
  sync_aggregate : SyncAggregate
  execution_payload : ExecutionPayload
  bls_to_execution_changes : SSZList SignedBlsToExecutionChange 16

/-- The `Deneb` variant struct of `BeaconBlockBody`: the Capella fields
plus the trailing `blob_kzg_commitments` field. -/
structure BeaconBlockBodyDeneb where
  randao_reveal : SignatureBytes
  eth1_data : Eth1Data
  graffiti : Bytes32
  proposer_slashings : SSZList ProposerSlashing 16
  attester_slashings : SSZList AttesterSlashing 2
  attestations : SSZList Attestation 128
  deposits : SSZList Deposit 16
  voluntary_exits : SSZList SignedVoluntaryExit 16
  sync_aggregate : SyncAggregate
  execution_payload : ExecutionPayload
  bls_to_execution_changes : SSZList SignedBlsToExecutionChange 16
  blob_kzg_commitments : SSZList (ByteVector 48) 4096

/-- `enum BeaconBlockBody` generated by `superstruct` with
`variants(Bellatrix, Capella, Deneb)` (`types/mod.rs:29-60`). -/
inductive BeaconBlockBody where
  | bellatrix : BeaconBlockBodyBellatrix → BeaconBlockBody
  | capella : BeaconBlockBodyCapella → BeaconBlockBody
  | deneb : BeaconBlockBodyDeneb → BeaconBlockBody

/-- `derive(Default)` for `BeaconBlockBodyBellatrix`. -/
def BeaconBlockBodyBellatrix.default : BeaconBlockBodyBellatrix :=
  { randao_reveal := ByteVector.default 96
    eth1_data := Eth1Data.default
    graffiti := ByteVector.default 32
    proposer_slashings := SSZList.default _ 16
    attester_slashings := SSZList.default _ 2
    attestations := SSZList.default _ 128
    deposits := SSZList.default _ 16
    voluntary_exits := SSZList.default _ 16
    sync_aggregate := SyncAggregate.default
    execution_payload := ExecutionPayload.default }

/-- `impl Default for BeaconBlockBody` (`types/mod.rs:62-66`): the
`Bellatrix` variant with all fields defaulted. -/
def BeaconBlockBody.default : BeaconBlockBody :=
  BeaconBlockBody.bellatrix BeaconBlockBodyBellatrix.default

/-- `struct BeaconBlock` (`types/mod.rs:20-27`). -/
structure BeaconBlock where
  slot : U64
  proposer_index : U64
  parent_root : Bytes32
  state_root : Bytes32
  body : BeaconBlockBody

/-- `struct Bootstrap` (`types/mod.rs:228-234`). -/
structure Bootstrap where
  header : Header
  current_sync_committee : SyncCommittee
  current_sync_committee_branch : List Bytes32

/-- `struct Update` (`types/mod.rs:236-247`). -/
structure Update where
  attested_header : Header
  next_sync_committee : SyncCommittee
  next_sync_committee_branch : List Bytes32
  finalized_header : Header
  finality_branch : List Bytes32
  sync_aggregate : SyncAggregate
  signature_slot : U64

/-- `struct UpdateSerde` (`types/mod.rs:257-266`): same fields as `Update`,
differing in Rust only by the header deserialisation attribute. -/
structure UpdateSerde where
  attested_header : Header
  next_sync_committee : SyncCommittee
  next_sync_committee_branch : List Bytes32
  finalized_header : Header
  finality_branch : List Bytes32
  sync_aggregate : SyncAggregate
  signature_slot : U64

/-- `struct FinalityUpdate` (`types/mod.rs:268-277`). -/
structure FinalityUpdate where
  attested_header : Header
  finalized_header : Header
  finality_branch : List Bytes32
  sync_aggregate : SyncAggregate
  signature_slot : U64

/-- `struct FinalityUpdateSerde` (`types/mod.rs:279-286`). -/
structure FinalityUpdateSerde where
  attested_header : Header
  finalized_header : Header
  finality_branch : List Bytes32
  sync_aggregate : SyncAggregate
  signature_slot : U64

/-- `struct OptimisticUpdate` (`types/mod.rs:288-294`). -/
structure OptimisticUpdate where
  attested_header : Header
  sync_aggregate : SyncAggregate
  signature_slot : U64

/-- `struct OptimisticUpdateSerde` (`types/mod.rs:296-301`). -/
structure OptimisticUpdateSerde where
  attested_header : Header
  sync_aggregate : SyncAggregate
  signature_slot : U64

/-- `struct GenericUpdate` (`types/mod.rs:324-332`). -/
structure GenericUpdate where
  attested_header : Header
  sync_aggregate : SyncAggregate
  signature_slot : U64
  next_sync_committee : Option SyncCommittee
  next_sync_committee_branch : Option (List Bytes32)
  finalized_header : Option Header
  finality_branch : Option (List Bytes32)

/-- `struct UpdatesResponse` (`types/mod.rs:448-453`). -/
structure UpdatesResponse where
  updates : List Update
  finality_update : FinalityUpdate
  optimistic_update : OptimisticUpdate

/-- `struct UpdatesResponseSerde` (`types/mod.rs:455-460`). -/
structure UpdatesResponseSerde where
  updates : List UpdateSerde
  finality_update : FinalityUpdateSerde
  optimistic_update : OptimisticUpdateSerde

/-! ## GenericUpdate normalisation (`From` impls, `types/mod.rs:334-374`) -/

/-- `impl From<&Update> for GenericUpdate` (`types/mod.rs:334-346`). -/
def GenericUpdate.fromUpdate (update : Update) : GenericUpdate :=
  { attested_header := update.attested_header
    sync_aggregate := update.sync_aggregate
    signature_slot := update.signature_slot
    next_sync_committee := some update.next_sync_committee
    next_sync_committee_branch := some update.next_sync_committee_branch
    finalized_header := some update.finalized_header
    finality_branch := some update.finality_branch }

/-- `impl From<&FinalityUpdate> for GenericUpdate` (`types/mod.rs:348-360`). -/
def GenericUpdate.fromFinalityUpdate (update : FinalityUpdate) : GenericUpdate :=
  { attested_header := update.attested_header
    sync_aggregate := update.sync_aggregate
    signature_slot := update.signature_slot
    next_sync_committee := none
    next_sync_committee_branch := none
    finalized_header := some update.finalized_header
    finality_branch := some update.finality_branch }

/-- `impl From<&OptimisticUpdate> for GenericUpdate` (`types/mod.rs:362-374`). -/
def GenericUpdate.fromOptimisticUpdate (update : OptimisticUpdate) : GenericUpdate :=
  { attested_header := update.attested_header
    sync_aggregate := update.sync_aggregate
    signature_slot := update.signature_slot
    next_sync_committee := none
    next_sync_committee_branch := none
    finalized_header := none
    finality_branch := none }

/-! ## Serde-form conversions (`From`/`Into` impls, `types/mod.rs:376-446`) -/

/-- `impl From<Update> for UpdateSerde` (`types/mod.rs:376-388`). -/
def UpdateSerde.fromUpdate (value : Update) : UpdateSerde :=
  { attested_header := value.attested_header
    next_sync_committee := value.next_sync_committee
    next_sync_committee_branch := value.next_sync_committee_branch
    finalized_header := value.finalized_header
    finality_branch := value.finality_branch
    sync_aggregate := value.sync_aggregate
    signature_slot := value.signature_slot }

/-- `impl From<FinalityUpdate> for FinalityUpdateSerde` (`types/mod.rs:390-400`). -/
def FinalityUpdateSerde.fromFinalityUpdate (value : FinalityUpdate) : FinalityUpdateSerde :=
  { attested_header := value.attested_header
    finalized_header := value.finalized_header
    finality_branch := value.finality_branch
    sync_aggregate := value.sync_aggregate
    signature_slot := value.signature_slot }

/-- `impl From<OptimisticUpdate> for OptimisticUpdateSerde` (`types/mod.rs:402-410`). -/
def OptimisticUpdateSerde.fromOptimisticUpdate (value : OptimisticUpdate) : OptimisticUpdateSerde :=
  { attested_header := value.attested_header
    sync_aggregate := value.sync_aggregate
    signature_slot := value.signature_slot }

/-- `impl Into<Update> for UpdateSerde` (`types/mod.rs:412-424`). -/
def UpdateSerde.intoUpdate (s : UpdateSerde) : Update :=
  { attested_header := s.attested_header
    next_sync_committee := s.next_sync_committee
    next_sync_committee_branch := s.next_sync_committee_branch
    finalized_header := s.finalized_header
    finality_branch := s.finality_branch
    sync_aggregate := s.sync_aggregate
    signature_slot := s.signature_slot }

/-- `impl Into<FinalityUpdate> for FinalityUpdateSerde` (`types/mod.rs:426-436`). -/
def FinalityUpdateSerde.intoFinalityUpdate (s : FinalityUpdateSerde) : FinalityUpdate :=
  { attested_header := s.attested_header
    finalized_header := s.finalized_header
    finality_branch := s.finality_branch
    sync_aggregate := s.sync_aggregate
    signature_slot := s.signature_slot }

/-- `impl Into<OptimisticUpdate> for OptimisticUpdateSerde` (`types/mod.rs:438-446`). -/
def OptimisticUpdateSerde.intoOptimisticUpdate (s : OptimisticUpdateSerde) : OptimisticUpdate :=
  { attested_header := s.attested_header
    sync_aggregate := s.sync_aggregate
    signature_slot := s.signature_slot }

/-- `impl From<UpdatesResponseSerde> for UpdatesResponse` (`types/mod.rs:472-484`). -/
def UpdatesResponse.fromSerde (value : UpdatesResponseSerde) : UpdatesResponse :=
  { updates := value.updates.map UpdateSerde.intoUpdate
    finality_update := value.finality_update.intoFinalityUpdate
    optimistic_update := value.optimistic_update.intoOptimisticUpdate }

/-- `impl Into<UpdatesResponseSerde> for UpdatesResponse` (`types/mod.rs:486-498`). -/
def UpdatesResponse.intoSerde (r : UpdatesResponse) : UpdatesResponseSerde :=
  { updates := r.updates.map UpdateSerde.fromUpdate
    finality_update := FinalityUpdateSerde.fromFinalityUpdate r.finality_update
    optimistic_update := OptimisticUpdateSerde.fromOptimisticUpdate r.optimistic_update }

/-! ## The compact binary egress codec

Modelled from the spec: the `bcs` crate used by
`UpdatesResponse::deserialize_from_bytes` (`types/mod.rs:500-505`) is not
under `src/`; the spec describes it as "a compact, schema-fixed binary
egress form ... the destination must decode a deterministic fixed layout"
with "field order and the absence of self-describing markers ... part of
the compatibility contract".  We model it the way bcs works: fields in
declaration order with no tags, fixed-size data raw, variable-length
sequences prefixed by a ULEB128 length, and deserialisation failing unless
the input is consumed exactly. -/

/-- ULEB128 encoding of an unsigned integer (bcs length / integer prefix). -/
def uleb128 (n : Nat) : List Nat :=
  if n < 128 then [n] else (n % 128 + 128) :: uleb128 (n / 128)
decreasing_by exact Nat.div_lt_self (by omega) (by omega)

/-- ULEB128 decoding; returns the value and the remaining bytes. -/
def parseUleb : List Nat → Option (Nat × List Nat)
  | [] => none
  | b :: rest =>
    if b < 128 then some (b, rest)
    else
      match parseUleb rest with
      | some (m, r) => some (b - 128 + 128 * m, r)
      | none => none

/-- Decode an exact count of raw bytes as a fixed-size `ByteVector`. -/
def parseByteVector (n : Nat) (bs : List Nat) : Option (ByteVector n × List Nat) :=
  if h : n ≤ bs.length then
    some (⟨bs.take n, by simp [List.length_take]; omega⟩, bs.drop n)
  else none

/-- Decode exactly `n` items with the item decoder `p`. -/
def parseCount (p : List Nat → Option (α × List Nat)) :
    Nat → List Nat → Option (List α × List Nat)
  | 0, bs => some ([], bs)
  | k + 1, bs =>
    match p bs with
    | some (x, bs1) =>
      match parseCount p k bs1 with
      | some (xs, bs2) => some (x :: xs, bs2)
      | none => none
    | none => none

/-- `parseCount` returns exactly as many items as requested. -/
theorem parseCount_length (p : List Nat → Option (α × List Nat)) :
    ∀ (n : Nat) (bs : List Nat) {xs : List α} {r : List Nat},
      parseCount p n bs = some (xs, r) → xs.length = n := by
  intro n
  induction n with
  | zero =>
    intro bs xs r h
    simp [parseCount] at h
    simp [h.1]
  | succ k ih =>
    intro bs xs r h
    simp only [parseCount] at h
    split at h
    · split at h
      · rename_i hc
        simp only [Option.some.injEq, Prod.mk.injEq] at h
        rcases h with ⟨h1, _⟩
        subst h1
        simp [ih _ hc]
      · exact absurd h (by simp)
    · exact absurd h (by simp)

/-- Encode a variable-length sequence: ULEB128 length, then the items. -/
def serSeq (ser : α → List Nat) (xs : List α) : List Nat :=
  uleb128 xs.length ++ (xs.map ser).flatten

/-- Decode a variable-length sequence: ULEB128 length, then that many items. -/
def parseSeq (p : List Nat → Option (α × List Nat)) (bs : List Nat) :
    Option (List α × List Nat) :=
  match parseUleb bs with
  | some (k, bs1) => parseCount p k bs1
  | none => none

/-- Encode one participation bit as a byte. -/
def serBit (b : Bool) : List Nat := [if b then 1 else 0]

/-- Decode one participation bit. -/
def parseBit : List Nat → Option (Bool × List Nat)
  | [] => none
  | b :: rest => some (decide (b = 1), rest)

/-- Encode a `Header`: five fields in declaration order. -/
def serHeader (h : Header) : List Nat :=
  uleb128 h.slot ++ uleb128 h.proposer_index ++ h.parent_root.val ++
    h.state_root.val ++ h.body_root.val

/-- Decode a `Header`. -/
def parseHeader (bs : List Nat) : Option (Header × List Nat) :=
  match parseUleb bs with
  | some (slot, bs1) =>
    match parseUleb bs1 with
    | some (pidx, bs2) =>
      match parseByteVector 32 bs2 with
      | some (pr, bs3) =>
        match parseByteVector 32 bs3 with
        | some (sr, bs4) =>
          match parseByteVector 32 bs4 with
          | some (br, bs5) =>
            some ({ slot := slot, proposer_index := pidx, parent_root := pr,
                    state_root := sr, body_root := br }, bs5)
          | none => none
        | none => none
      | none => none
    | none => none
  | none => none

/-- Decode a fixed-length vector: exactly `k` items, no length prefix
(the count check cannot fail, by `parseCount_length`, but packages the
length invariant). -/
def parseFixVec (p : List Nat → Option (α × List Nat)) (k : Nat) (bs : List Nat) :
    Option (SSZVector α k × List Nat) :=
  match parseCount p k bs with
  | some (xs, bs1) => if hl : xs.length = k then some (⟨xs, hl⟩, bs1) else none
  | none => none

/-- Encode a `SyncCommittee`: 512 pubkeys (fixed count, no prefix), then
the aggregate pubkey. -/
def serSyncCommittee (c : SyncCommittee) : List Nat :=
  (c.pubkeys.val.map Subtype.val).flatten ++ c.aggregate_pubkey.val

/-- Decode a `SyncCommittee`. -/
def parseSyncCommittee (bs : List Nat) : Option (SyncCommittee × List Nat) :=
  match parseFixVec (parseByteVector 48) 512 bs with
  | some (pks, bs1) =>
    match parseByteVector 48 bs1 with
    | some (agg, bs2) => some ({ pubkeys := pks, aggregate_pubkey := agg }, bs2)
    | none => none
  | none => none

/-- Encode a `SyncAggregate`: 512 participation bits, then the signature. -/
def serSyncAggregate (a : SyncAggregate) : List Nat :=
  (a.sync_committee_bits.val.map serBit).flatten ++ a.sync_committee_signature.val

/-- Decode a `SyncAggregate`. -/
def parseSyncAggregate (bs : List Nat) : Option (SyncAggregate × List Nat) :=
  match parseFixVec parseBit 512 bs with
  | some (bits, bs1) =>
    match parseByteVector 96 bs1 with
    | some (sig, bs2) =>
      some ({ sync_committee_bits := bits, sync_committee_signature := sig }, bs2)
    | none => none
  | none => none

/-- Encode a Merkle branch (`Vec<Bytes32>`): length-prefixed sequence. -/
def serBranch (br : List Bytes32) : List Nat := serSeq Subtype.val br

/-- Decode a Merkle branch. -/
def parseBranch : List Nat → Option (List Bytes32 × List Nat) :=
  parseSeq (parseByteVector 32)

/-- Encode an `UpdateSerde`: seven fields in declaration order. -/
def serUpdateSerde (u : UpdateSerde) : List Nat :=
  serHeader u.attested_header ++ serSyncCommittee u.next_sync_committee ++
    serBranch u.next_sync_committee_branch ++ serHeader u.finalized_header ++
    serBranch u.finality_branch ++ serSyncAggregate u.sync_aggregate ++
    uleb128 u.signature_slot

/-- Decode an `UpdateSerde`. -/
def parseUpdateSerde (bs : List Nat) : Option (UpdateSerde × List Nat) :=
  match parseHeader bs with
  | some (ah, bs1) =>
    match parseSyncCommittee bs1 with
    | some (nsc, bs2) =>
      match parseBranch bs2 with
      | some (nscb, bs3) =>
        match parseHeader bs3 with
        | some (fh, bs4) =>
          match parseBranch bs4 with
          | some (fb, bs5) =>
            match parseSyncAggregate bs5 with
            | some (sa, bs6) =>
              match parseUleb bs6 with
              | some (ss, bs7) =>
                some ({ attested_header := ah, next_sync_committee := nsc,
                        next_sync_committee_branch := nscb, finalized_header := fh,
                        finality_branch := fb, sync_aggregate := sa,
                        signature_slot := ss }, bs7)
              | none => none
            | none => none
          | none => none
        | none => none
      | none => none
    | none => none
  | none => none

/-- Encode a `FinalityUpdateSerde`: five fields in declaration order. -/
def serFinalityUpdateSerde (u : FinalityUpdateSerde) : List Nat :=
  serHeader u.attested_header ++ serHeader u.finalized_header ++
    serBranch u.finality_branch ++ serSyncAggregate u.sync_aggregate ++
    uleb128 u.signature_slot

/-- Decode a `FinalityUpdateSerde`. -/
def parseFinalityUpdateSerde (bs : List Nat) : Option (FinalityUpdateSerde × List Nat) :=
  match parseHeader bs with
  | some (ah, bs1) =>
    match parseHeader bs1 with
    | some (fh, bs2) =>
      match parseBranch bs2 with
      | some (fb, bs3) =>
        match parseSyncAggregate bs3 with
        | some (sa, bs4) =>
          match parseUleb bs4 with
          | some (ss, bs5) =>
            some ({ attested_header := ah, finalized_header := fh,
                    finality_branch := fb, sync_aggregate := sa,
                    signature_slot := ss }, bs5)
          | none => none
        | none => none
      | none => none
    | none => none
  | none => none

/-- Encode an `OptimisticUpdateSerde`: three fields in declaration order. -/
def serOptimisticUpdateSerde (u : OptimisticUpdateSerde) : List Nat :=
  serHeader u.attested_header ++ serSyncAggregate u.sync_aggregate ++
    uleb128 u.signature_slot

/-- Decode an `OptimisticUpdateSerde`. -/
def parseOptimisticUpdateSerde (bs : List Nat) :
    Option (OptimisticUpdateSerde × List Nat) :=
  match parseHeader bs with
  | some (ah, bs1) =>
    match parseSyncAggregate bs1 with
    | some (sa, bs2) =>
      match parseUleb bs2 with
      | some (ss, bs3) =>
        some ({ attested_header := ah, sync_aggregate := sa,
                signature_slot := ss }, bs3)
      | none => none
    | none => none
  | none => none

/-- Encode an `UpdatesResponseSerde` (the bcs egress bytes): the update
list (length-prefixed), the finality update, the optimistic update. -/
def serUpdatesResponseSerde (r : UpdatesResponseSerde) : List Nat :=
  serSeq serUpdateSerde r.updates ++ serFinalityUpdateSerde r.finality_update ++
    serOptimisticUpdateSerde r.optimistic_update

/-- Decode an `UpdatesResponseSerde`. -/
def parseUpdatesResponseSerde (bs : List Nat) :
    Option (UpdatesResponseSerde × List Nat) :=
  match parseSeq parseUpdateSerde bs with
  | some (us, bs1) =>
    match parseFinalityUpdateSerde bs1 with
    | some (fu, bs2) =>
      match parseOptimisticUpdateSerde bs2 with
      | some (ou, bs3) =>
        some ({ updates := us, finality_update := fu, optimistic_update := ou }, bs3)
      | none => none
    | none => none
  | none => none

/-- `bcs::from_bytes::<UpdatesResponseSerde>`: decode and require the whole
input consumed (bcs rejects trailing bytes). -/
def bcsFromBytes (bytes : List Nat) : Except String UpdatesResponseSerde :=
  match parseUpdatesResponseSerde bytes with
  | some (v, []) => .ok v
  | some (_, _ :: _) => .error "remaining input"
  | none => .error "malformed input"

/-- `UpdatesResponse::deserialize_from_bytes` (`types/mod.rs:500-505`):
bcs-decode an `UpdatesResponseSerde`, then convert via its `From` impl. -/
def UpdatesResponse.deserialize_from_bytes (bytes : List Nat) :
    Except String UpdatesResponse :=
  match bcsFromBytes bytes with
  | .ok s => .ok (UpdatesResponse.fromSerde s)
  | .error e => .error e

/-! ## Superstruct partial-field accessors

Modelled from the spec: the getters `superstruct` generates for
`#[superstruct(only(...))]` fields are macro-expanded code not under
`src/`; per the spec, "decoding a later-fork-only field against an
earlier-variant body fails with `UnsupportedForkVariant`" rather than
defaulting. -/

/-- The error returned when a fork-only field is read from a variant that
lacks it. -/
inductive ForkVariantError where
  | unsupportedForkVariant
deriving DecidableEq

/-- Accessor for the Capella-onward field `bls_to_execution_changes`. -/
def BeaconBlockBody.bls_to_execution_changes :
    BeaconBlockBody → Except ForkVariantError (SSZList SignedBlsToExecutionChange 16)
  | .bellatrix _ => .error .unsupportedForkVariant
  | .capella b => .ok b.bls_to_execution_changes
  | .deneb b => .ok b.bls_to_execution_changes

/-- Accessor for the Deneb-only field `blob_kzg_commitments`. -/
def BeaconBlockBody.blob_kzg_commitments :
    BeaconBlockBody → Except ForkVariantError (SSZList (ByteVector 48) 4096)
  | .bellatrix _ => .error .unsupportedForkVariant
  | .capella _ => .error .unsupportedForkVariant
  | .deneb b => .ok b.blob_kzg_commitments

/-- Accessor for the Capella-onward field `withdrawals`. -/
def ExecutionPayload.withdrawals :
    ExecutionPayload → Except ForkVariantError (SSZList Withdrawal 16)
  | .bellatrix _ => .error .unsupportedForkVariant
  | .capella p => .ok p.withdrawals
  | .deneb p => .ok p.withdrawals

/-- Accessor for the Deneb-only field `blob_gas_used`. -/
def ExecutionPayload.blob_gas_used :
    ExecutionPayload → Except ForkVariantError U64
  | .bellatrix _ => .error .unsupportedForkVariant
  | .capella _ => .error .unsupportedForkVariant
  | .deneb p => .ok p.blob_gas_used

/-- Accessor for the Deneb-only field `excess_blob_gas`. -/
def ExecutionPayload.excess_blob_gas :
    ExecutionPayload → Except ForkVariantError U64
  | .bellatrix _ => .error .unsupportedForkVariant
  | .capella _ => .error .unsupportedForkVariant
  | .deneb p => .ok p.excess_blob_gas

/-- Total accessor for the shared field `transactions` (present in every
variant, so `superstruct` generates an infallible getter). -/
def ExecutionPayload.transactions :
    ExecutionPayload → SSZList Transaction 1048576
  | .bellatrix p => p.transactions
  | .capella p => p.transactions
  | .deneb p => p.transactions

/-- Total accessor for the shared field `extra_data`. -/
def ExecutionPayload.extra_data : ExecutionPayload → ByteList 32
  | .bellatrix p => p.extra_data
  | .capella p => p.extra_data
  | .deneb p => p.extra_data

/-! ## Declared field names of the verbose ingress schema

The field lists below transcribe the struct declarations of
`types/mod.rs` in source order; they drive the field-name level model of
the serde-derived deserialisers. -/

/-- Fields of `BeaconBlockBodyBellatrix` (`types/mod.rs:45-55`). -/
def beaconBlockBodyBellatrixFields : List String :=
  ["randao_reveal", "eth1_data", "graffiti", "proposer_slashings",
   "attester_slashings", "attestations", "deposits", "voluntary_exits",
   "sync_aggregate", "execution_payload"]

/-- Fields of `BeaconBlockBodyCapella` (`types/mod.rs:45-57`). -/
def beaconBlockBodyCapellaFields : List String :=
  ["randao_reveal", "eth1_data", "graffiti", "proposer_slashings",
   "attester_slashings", "attestations", "deposits", "voluntary_exits",
   "sync_aggregate", "execution_payload", "bls_to_execution_changes"]

/-- Fields of `BeaconBlockBodyDeneb` (`types/mod.rs:45-59`). -/
def beaconBlockBodyDenebFields : List String :=
  ["randao_reveal", "eth1_data", "graffiti", "proposer_slashings",
   "attester_slashings", "attestations", "deposits", "voluntary_exits",
   "sync_aggregate", "execution_payload", "bls_to_execution_changes",
   "blob_kzg_commitments"]

/-- Fields of `ExecutionPayloadBellatrix` (`types/mod.rs:100-114`). -/
def executionPayloadBellatrixFields : List String :=
  ["parent_hash", "fee_recipient", "state_root", "receipts_root",
   "logs_bloom", "prev_randao", "block_number", "gas_limit", "gas_used",
   "timestamp", "extra_data", "base_fee_per_gas", "block_hash",
   "transactions"]

/-- Fields of `ExecutionPayloadCapella` (`types/mod.rs:100-116`). -/
def executionPayloadCapellaFields : List String :=
  ["parent_hash", "fee_recipient", "state_root", "receipts_root",
   "logs_bloom", "prev_randao", "block_number", "gas_limit", "gas_used",
   "timestamp", "extra_data", "base_fee_per_gas", "block_hash",
   "transactions", "withdrawals"]

/-- Fields of `ExecutionPayloadDeneb` (`types/mod.rs:100-120`). -/
def executionPayloadDenebFields : List String :=
  ["parent_hash", "fee_recipient", "state_root", "receipts_root",
   "logs_bloom", "prev_randao", "block_number", "gas_limit", "gas_used",
   "timestamp", "extra_data", "base_fee_per_gas", "block_hash",
   "transactions", "withdrawals", "blob_gas_used", "excess_blob_gas"]

/-- Fields of `Bootstrap` (`types/mod.rs:228-234`). -/
def bootstrapFields : List String :=
  ["header", "current_sync_committee", "current_sync_committee_branch"]

/-- Fields of `Update` (`types/mod.rs:236-247`). -/
def updateFields : List String :=
  ["attested_header", "next_sync_committee", "next_sync_committee_branch",
   "finalized_header", "finality_branch", "sync_aggregate", "signature_slot"]

/-- Fields of `FinalityUpdate` (`types/mod.rs:268-277`). -/
def finalityUpdateFields : List String :=
  ["attested_header", "finalized_header", "finality_branch",
   "sync_aggregate", "signature_slot"]

/-- Fields of `OptimisticUpdate` (`types/mod.rs:288-294`). -/
def optimisticUpdateFields : List String :=
  ["attested_header", "sync_aggregate", "signature_slot"]

/-! ## Field-name semantics of the verbose ingress decoders

Modelled from the spec: the deserialiser code serde derives for these
structs is macro-expanded code not under `src/`.  The spec describes the
ingress form as "a verbose, self-describing ingress form ... field names
explicit"; serde's derived deserialiser requires every declared field to
be present and, exactly when the struct carries
`#[serde(deny_unknown_fields)]`, rejects any field name outside the
declaration.  Field values are carried through opaquely: the model
isolates the field-name handling the claims are about. -/

/-- A JSON-like self-describing ingress document. -/
inductive Json where
  | null
  | str (s : String)
  | num (n : Nat)
  | arr (elems : List Json)
  | obj (fields : List (String × Json))

/-- Look up a field by name in a decoded object. -/
def getField (fields : List (String × Json)) (k : String) : Option Json :=
  (fields.find? (fun kv => kv.1 == k)).map (fun kv => kv.2)

/-- The field-name behaviour of a serde-derived struct deserialiser:
all declared fields must be present; with `strict` (the
`deny_unknown_fields` attribute) every present field must be declared,
without it unknown fields are ignored.  Returns the declared fields with
their values. -/
def decodeStruct (declared : List String) (strict : Bool) :
    Json → Option (List (String × Json))
  | .obj fields =>
    if declared.all (fun k => (getField fields k).isSome) &&
        (!strict || fields.all (fun kv => declared.contains kv.1)) then
      some (declared.filterMap (fun k => (getField fields k).map (fun v => (k, v))))
    else none
  | _ => none

/-- Verbose decode of `Bootstrap` (no `deny_unknown_fields`). -/
def decodeBootstrap : Json → Option (List (String × Json)) :=
  decodeStruct bootstrapFields false

/-- Verbose decode of `Update` (no `deny_unknown_fields`). -/
def decodeUpdate : Json → Option (List (String × Json)) :=
  decodeStruct updateFields false

/-- Verbose decode of `FinalityUpdate` (no `deny_unknown_fields`). -/
def decodeFinalityUpdate : Json → Option (List (String × Json)) :=
  decodeStruct finalityUpdateFields false

/-- Verbose decode of `OptimisticUpdate` (no `deny_unknown_fields`). -/
def decodeOptimisticUpdate : Json → Option (List (String × Json)) :=
  decodeStruct optimisticUpdateFields false

/-- The fork-variant tag a successful untagged decode resolved to. -/
inductive ForkTag where
  | bellatrix
  | capella
  | deneb
deriving DecidableEq

/-- Verbose decode of the `#[serde(untagged)]` enum `BeaconBlockBody`:
each variant struct carries `deny_unknown_fields`; variants are tried in
declaration order. -/
def decodeBeaconBlockBody (j : Json) : Option (ForkTag × List (String × Json)) :=
  match decodeStruct beaconBlockBodyBellatrixFields true j with
  | some v => some (.bellatrix, v)
  | none =>
    match decodeStruct beaconBlockBodyCapellaFields true j with
    | some v => some (.capella, v)
    | none =>
      match decodeStruct beaconBlockBodyDenebFields true j with
      | some v => some (.deneb, v)
      | none => none

/-- Verbose decode of the `#[serde(untagged)]` enum `ExecutionPayload`. -/
def decodeExecutionPayload (j : Json) : Option (ForkTag × List (String × Json)) :=
  match decodeStruct executionPayloadBellatrixFields true j with
  | some v => some (.bellatrix, v)
  | none =>
    match decodeStruct executionPayloadCapellaFields true j with
    | some v => some (.capella, v)
    | none =>
      match decodeStruct executionPayloadDenebFields true j with
      | some v => some (.deneb, v)
      | none => none

/-- A strict (`deny_unknown_fields`) decode rejects any object carrying a
field name outside the declared list. -/
theorem decodeStruct_strict_unknown (declared : List String)
    (fields : List (String × Json)) (k : String)
    (hk : k ∈ fields.map Prod.fst) (hnot : ¬ k ∈ declared) :
    decodeStruct declared true (.obj fields) = none := by
  have hall : fields.all (fun kv => declared.contains kv.1) = false := by
    rcases List.mem_map.mp hk with ⟨kv, hkv, hfst⟩
    apply Bool.eq_false_iff.mpr
    intro hall
    have := List.all_eq_true.mp hall kv hkv
    rw [hfst] at this
    exact hnot (by simpa using this)
  simp only [decodeStruct, Bool.not_true, Bool.false_or]
  rw [hall, Bool.and_false]
  simp

/-- A non-strict decode succeeds exactly when all declared fields are
present, whatever other fields the object carries. -/
theorem decodeStruct_lax_isSome (declared : List String)
    (fields : List (String × Json)) :
    (decodeStruct declared false (.obj fields)).isSome =
      declared.all (fun k => (getField fields k).isSome) := by
  simp only [decodeStruct, Bool.not_false, Bool.true_or, Bool.and_true]
  split <;> simp_all

/-! ## Codec round-trip lemmas -/

/-- ULEB128 round-trip, composable form. -/
theorem parseUleb_uleb128 (n : Nat) (rest : List Nat) :
    parseUleb (uleb128 n ++ rest) = some (n, rest) := by
  induction n using Nat.strong_induction_on with
  | _ n ih =>
    rw [uleb128]
    rcases Nat.lt_or_ge n 128 with h | h
    · rw [if_pos h]
      simp [parseUleb, h]
    · rw [if_neg (by omega)]
      simp only [List.cons_append, parseUleb, List.append_eq]
      rw [if_neg (by omega)]
      rw [ih (n / 128) (Nat.div_lt_self (by omega) (by omega))]
      simp
      omega

/-- Fixed-size byte-vector round-trip, composable form. -/
theorem parseByteVector_ser {n : Nat} (v : ByteVector n) (rest : List Nat) :
    parseByteVector n (v.val ++ rest) = some (v, rest) := by
  have hlen : v.val.length = n := v.property
  rw [parseByteVector, dif_pos (by simp [hlen])]
  have ht : (v.val ++ rest).take n = v.val := List.take_left' hlen
  have hd : (v.val ++ rest).drop n = rest := List.drop_left' hlen
  simp [ht, hd]

/-- Counted-item round-trip, composable form: if the item codec
round-trips, so does decoding `xs.length` serialised items. -/
theorem parseCount_flatten {α : Type} (ser : α → List Nat)
    (p : List Nat → Option (α × List Nat))
    (hp : ∀ (x : α) (rest : List Nat), p (ser x ++ rest) = some (x, rest)) :
    ∀ (xs : List α) (rest : List Nat),
      parseCount p xs.length ((xs.map ser).flatten ++ rest) = some (xs, rest) := by
  intro xs
  induction xs with
  | nil => intro rest; simp [parseCount]
  | cons x xs ih =>
    intro rest
    simp only [List.map_cons, List.flatten_cons, List.length_cons, parseCount,
      List.append_assoc, hp, ih]

/-- Fixed-vector round-trip, composable form. -/
theorem parseFixVec_ser {α : Type} {k : Nat} (ser : α → List Nat)
    (p : List Nat → Option (α × List Nat))
    (hp : ∀ (x : α) (rest : List Nat), p (ser x ++ rest) = some (x, rest))
    (v : SSZVector α k) (rest : List Nat) :
    parseFixVec p k ((v.val.map ser).flatten ++ rest) = some (v, rest) := by
  have hc := parseCount_flatten ser p hp v.val rest
  rw [v.property] at hc
  have hl := v.property
  simp only [parseFixVec, hc]
  rw [dif_pos hl]

/-- Length-prefixed sequence round-trip, composable form. -/
theorem parseSeq_serSeq {α : Type} (ser : α → List Nat)
    (p : List Nat → Option (α × List Nat))
    (hp : ∀ (x : α) (rest : List Nat), p (ser x ++ rest) = some (x, rest))
    (xs : List α) (rest : List Nat) :
    parseSeq p (serSeq ser xs ++ rest) = some (xs, rest) := by
  simp only [serSeq, parseSeq, List.append_assoc, parseUleb_uleb128]
  exact parseCount_flatten ser p hp xs rest

/-- Participation-bit round-trip, composable form. -/
theorem parseBit_serBit (b : Bool) (rest : List Nat) :
    parseBit (serBit b ++ rest) = some (b, rest) := by
  cases b <;> simp [serBit, parseBit]

/-- `Header` round-trip, composable form. -/
theorem parseHeader_ser (h : Header) (rest : List Nat) :
    parseHeader (serHeader h ++ rest) = some (h, rest) := by
  simp [serHeader, parseHeader, List.append_assoc, parseUleb_uleb128,
    parseByteVector_ser]

/-- `SyncCommittee` round-trip, composable form. -/
theorem parseSyncCommittee_ser (c : SyncCommittee) (rest : List Nat) :
    parseSyncCommittee (serSyncCommittee c ++ rest) = some (c, rest) := by
  have h1 := parseFixVec_ser Subtype.val (parseByteVector 48)
    (fun x r => parseByteVector_ser x r) c.pubkeys (c.aggregate_pubkey.val ++ rest)
  simp only [serSyncCommittee, List.append_assoc, parseSyncCommittee, h1,
    parseByteVector_ser]

/-- `SyncAggregate` round-trip, composable form. -/
theorem parseSyncAggregate_ser (a : SyncAggregate) (rest : List Nat) :
    parseSyncAggregate (serSyncAggregate a ++ rest) = some (a, rest) := by
  simp [serSyncAggregate, parseSyncAggregate, List.append_assoc,
    parseFixVec_ser serBit parseBit parseBit_serBit, parseByteVector_ser]

/-- Merkle-branch round-trip, composable form. -/
theorem parseBranch_ser (br : List Bytes32) (rest : List Nat) :
    parseBranch (serBranch br ++ rest) = some (br, rest) := by
  simp only [serBranch, parseBranch]
  exact parseSeq_serSeq Subtype.val (parseByteVector 32)
    (fun x r => parseByteVector_ser x r) br rest

/-- `UpdateSerde` round-trip, composable form. -/
theorem parseUpdateSerde_ser (u : UpdateSerde) (rest : List Nat) :
    parseUpdateSerde (serUpdateSerde u ++ rest) = some (u, rest) := by
  simp [serUpdateSerde, parseUpdateSerde, List.append_assoc, parseHeader_ser,
    parseSyncCommittee_ser, parseBranch_ser, parseSyncAggregate_ser,
    parseUleb_uleb128]

/-- `FinalityUpdateSerde` round-trip, composable form. -/
theorem parseFinalityUpdateSerde_ser (u : FinalityUpdateSerde) (rest : List Nat) :
    parseFinalityUpdateSerde (serFinalityUpdateSerde u ++ rest) = some (u, rest) := by
  simp [serFinalityUpdateSerde, parseFinalityUpdateSerde, List.append_assoc,
    parseHeader_ser, parseBranch_ser, parseSyncAggregate_ser, parseUleb_uleb128]

/-- `OptimisticUpdateSerde` round-trip, composable form. -/
theorem parseOptimisticUpdateSerde_ser (u : OptimisticUpdateSerde) (rest : List Nat) :
    parseOptimisticUpdateSerde (serOptimisticUpdateSerde u ++ rest) = some (u, rest) := by
  simp [serOptimisticUpdateSerde, parseOptimisticUpdateSerde, List.append_assoc,
    parseHeader_ser, parseSyncAggregate_ser, parseUleb_uleb128]

/-- `UpdatesResponseSerde` round-trip, composable form. -/
theorem parseUpdatesResponseSerde_ser (r : UpdatesResponseSerde) (rest : List Nat) :
    parseUpdatesResponseSerde (serUpdatesResponseSerde r ++ rest) = some (r, rest) := by
  simp [serUpdatesResponseSerde, parseUpdatesResponseSerde, List.append_assoc,
    parseSeq_serSeq serUpdateSerde parseUpdateSerde parseUpdateSerde_ser,
    parseFinalityUpdateSerde_ser, parseOptimisticUpdateSerde_ser]

/-- `bcs` round-trip at the top level: serialising an
`UpdatesResponseSerde` and bcs-decoding it yields it back. -/
theorem bcsFromBytes_ser (r : UpdatesResponseSerde) :
    bcsFromBytes (serUpdatesResponseSerde r) = .ok r := by
  have h := parseUpdatesResponseSerde_ser r []
  rw [List.append_nil] at h
  rw [bcsFromBytes, h]

/-! ## The ConsensusStateManager update pipeline

Modelled from the spec: `ConsensusStateManager` and `apply_update` are in
the crate's `consensus` module, which is not under `src/` (only the
`types` module is).  The pipeline below follows spec section 4.3 step by
step: ordering/replay check, quorum check, signature check (delegated to
an external capability), next-committee proof, finality proof with
committee rotation, and the optimistic-only watermark.  The Merkle branch
verification follows the spec section 4.1 contract, with the pairwise
hash supplied as a capability. -/

/-- The error taxonomy of spec section 7. -/
inductive ConsensusError where
  | malformedInput
  | staleUpdate
  | insufficientSignatures
  | invalidMerkleProof
  | signatureInvalid
  | unsupportedForkVariant
  | notBootstrapped
deriving DecidableEq

/-- The manager's mutable verified state: current committee, pending-next
committee, best finalized header, best optimistic header. -/
structure LightClientStore where
  finalized_header : Header
  current_sync_committee : SyncCommittee
  next_sync_committee : Option SyncCommittee
  optimistic_header : Header

/-- The external capabilities `apply_update` composes: hash-tree roots,
the pairwise Merkle hash, the domain-separated signing root, and the
aggregate-signature verification capability. -/
structure CryptoOps where
  htrHeader : Header → Bytes32
  htrSyncCommittee : SyncCommittee → Bytes32
  hashPair : Bytes32 → Bytes32 → Bytes32
  signingRoot : Header → Bytes32
  verifySig : List BLSPubKey → Bytes32 → SignatureBytes → Bool

/-- Recompute a Merkle root from a leaf and the ordered sibling hashes;
each bit of the generalized index selects the concatenation order
(spec section 4.1). -/
def branchRoot (hashPair : Bytes32 → Bytes32 → Bytes32) :
    Bytes32 → List Bytes32 → Nat → Bytes32
  | leaf, [], _ => leaf
  | leaf, sib :: rest, idx =>
    branchRoot hashPair (if idx % 2 = 1 then hashPair sib leaf else hashPair leaf sib)
      rest (idx / 2)

/-- `verify_branch` (spec section 4.1): a branch whose length does not
match the expected depth is rejected without hashing; otherwise the
recomputed root must equal the expected root. -/
def verifyBranch (hashPair : Bytes32 → Bytes32 → Bytes32) (leaf : Bytes32)
    (branch : List Bytes32) (depth : Nat) (genIndex : Nat) (root : Bytes32) : Bool :=
  decide (branch.length = depth) &&
    decide (branchRoot hashPair leaf branch genIndex = root)

/-- Protocol-fixed depth of the next-sync-committee inclusion proof. -/
def nextSyncCommitteeProofDepth : Nat := 5

/-- Protocol-fixed generalized index of the next-sync-committee leaf. -/
def nextSyncCommitteeProofIndex : Nat := 55

/-- Protocol-fixed depth of the finality inclusion proof. -/
def finalityProofDepth : Nat := 6

/-- Protocol-fixed generalized index of the finality leaf. -/
def finalityProofIndex : Nat := 41

/-- Slots per sync-committee period (the committee "rotates once per
fixed period"). -/
def slotsPerPeriod : Nat := 8192

/-- The sync-committee period a slot belongs to. -/
def calcPeriod (slot : U64) : Nat := slot / slotsPerPeriod

/-- Count of participating bits in a sync aggregate. -/
def SyncAggregate.countBits (a : SyncAggregate) : Nat :=
  a.sync_committee_bits.val.count true

/-- Step 1 of `apply_update`: `finalized.slot <= attested.slot <
signature_slot`, and `attested.slot` not older than the stored finalized
header's slot (replay/rollback rejection). -/
def orderingOk (store : LightClientStore) (u : GenericUpdate) : Bool :=
  (match u.finalized_header with
   | some fh => decide (fh.slot ≤ u.attested_header.slot)
   | none => true) &&
    decide (u.attested_header.slot < u.signature_slot) &&
    decide (store.finalized_header.slot ≤ u.attested_header.slot)

/-- Step 2 of `apply_update`: the participating bits must reach
two-thirds of 512 (the floor, `341`), else `InsufficientSignatures`. -/
def quorumCheck (a : SyncAggregate) : Except ConsensusError Unit :=
  if a.countBits < 2 * 512 / 3 then .error .insufficientSignatures else .ok ()

/-- The committee members selected by the participation bits. -/
def participatingKeys (c : SyncCommittee) (a : SyncAggregate) : List BLSPubKey :=
  (List.zip c.pubkeys.val a.sync_committee_bits.val).filterMap
    (fun pb => if pb.2 then some pb.1 else none)

/-- The non-authoritative "best optimistic header" watermark: advance it
when the attested header is more recent (spec section 4.3 step 6). -/
def bumpOptimistic (store : LightClientStore) (u : GenericUpdate) : Header :=
  if store.optimistic_header.slot < u.attested_header.slot then u.attested_header
  else store.optimistic_header

/-- Steps 5-6 of `apply_update`: verify the finality proof when present,
commit a newer finalized header, rotate the committee when the committed
header crosses a period boundary and a pending-next committee exists, and
advance the optimistic watermark. -/
def applyFinality (ops : CryptoOps) (store : LightClientStore) (u : GenericUpdate)
    (pending : Option SyncCommittee) : Except ConsensusError LightClientStore :=
  match u.finalized_header, u.finality_branch with
  | some fh, some fb =>
    if verifyBranch ops.hashPair (ops.htrHeader fh) fb finalityProofDepth
        finalityProofIndex u.attested_header.state_root = false then
      .error .invalidMerkleProof
    else if store.finalized_header.slot < fh.slot then
      match pending with
      | some nsc =>
        if calcPeriod store.finalized_header.slot < calcPeriod fh.slot then
          .ok { finalized_header := fh
                current_sync_committee := nsc
                next_sync_committee := none
                optimistic_header := bumpOptimistic store u }
        else
          .ok { finalized_header := fh
                current_sync_committee := store.current_sync_committee
                next_sync_committee := some nsc
                optimistic_header := bumpOptimistic store u }
      | none =>
        .ok { finalized_header := fh
              current_sync_committee := store.current_sync_committee
              next_sync_committee := none
              optimistic_header := bumpOptimistic store u }
    else
      .ok { finalized_header := store.finalized_header
            current_sync_committee := store.current_sync_committee
            next_sync_committee := pending
            optimistic_header := bumpOptimistic store u }
  | _, _ =>
    .ok { finalized_header := store.finalized_header
          current_sync_committee := store.current_sync_committee
          next_sync_committee := pending
          optimistic_header := bumpOptimistic store u }

/-- `apply_update` (spec section 4.3): the single verification path
shared by the three update kinds, normalised as a `GenericUpdate`.
Verification is all-or-nothing: an error carries out no state, so a
rejected update leaves the caller's store untouched. -/
def applyUpdate (ops : CryptoOps) (store : LightClientStore) (u : GenericUpdate) :
    Except ConsensusError LightClientStore :=
  if orderingOk store u = false then .error .staleUpdate
  else
    match quorumCheck u.sync_aggregate with
    | .error e => .error e
    | .ok () =>
      if ops.verifySig (participatingKeys store.current_sync_committee u.sync_aggregate)
          (ops.signingRoot u.attested_header) u.sync_aggregate.sync_committee_signature
          = false then .error .signatureInvalid
      else
        match u.next_sync_committee, u.next_sync_committee_branch with
        | some nsc, some nscb =>
          if verifyBranch ops.hashPair (ops.htrSyncCommittee nsc) nscb
              nextSyncCommitteeProofDepth nextSyncCommitteeProofIndex
              u.attested_header.state_root = false then .error .invalidMerkleProof
          else applyFinality ops store u (some nsc)
        | _, _ => applyFinality ops store u store.next_sync_committee

/-! ## Concrete fixtures for witnesses -/

/-- A concrete capability record (trivial hashes, accepting verifier). -/
def demoOps : CryptoOps :=
  { htrHeader := fun _ => ByteVector.default 32
    htrSyncCommittee := fun _ => ByteVector.default 32
    hashPair := fun _ _ => ByteVector.default 32
    signingRoot := fun _ => ByteVector.default 32
    verifySig := fun _ _ _ => true }

/-- A concrete store at slot zero. -/
def demoStore : LightClientStore :=
  { finalized_header := Header.default
    current_sync_committee := SyncCommittee.default
    next_sync_committee := none
    optimistic_header := Header.default }

/-- A sync aggregate with exactly 341 participating bits. -/
def demoAggregate341 : SyncAggregate :=
  { sync_committee_bits := ⟨List.replicate 341 true ++ List.replicate 171 false, by decide⟩
    sync_committee_signature := ByteVector.default 96 }

/-- A sync aggregate with exactly 340 participating bits. -/
def demoAggregate340 : SyncAggregate :=
  { sync_committee_bits := ⟨List.replicate 340 true ++ List.replicate 172 false, by decide⟩
    sync_committee_signature := ByteVector.default 96 }

/-- A well-ordered optimistic-style update carrying 340 participation
bits. -/
def demoUpdate340 : GenericUpdate :=
  { attested_header := { Header.default with slot := 1 }
    sync_aggregate := demoAggregate340
    signature_slot := 2
    next_sync_committee := none
    next_sync_committee_branch := none
    finalized_header := none
    finality_branch := none }

/-! ## Claim theorems -/

/-- Conversion to the compact serde form and back is the identity on
`UpdatesResponse`. -/
theorem fromSerde_intoSerde (r : UpdatesResponse) :
    UpdatesResponse.fromSerde (UpdatesResponse.intoSerde r) = r := by
  simp only [UpdatesResponse.fromSerde, UpdatesResponse.intoSerde, List.map_map]
  have h1 : UpdateSerde.intoUpdate ∘ UpdateSerde.fromUpdate = id := funext (fun _ => rfl)
  rw [h1, List.map_id]
  rfl

/-- C1: for every wire message type, converting the canonical in-memory
structure into its compact serde form and back is the identity on every
field; in particular `UpdatesResponse::deserialize_from_bytes` applied to
the bcs encoding of a response's `UpdatesResponseSerde` form returns `Ok`
of a response equal to the original. -/
theorem compact_form_roundtrip :
    (∀ u : Update, (UpdateSerde.fromUpdate u).intoUpdate = u) ∧
    (∀ u : FinalityUpdate,
      (FinalityUpdateSerde.fromFinalityUpdate u).intoFinalityUpdate = u) ∧
    (∀ u : OptimisticUpdate,
      (OptimisticUpdateSerde.fromOptimisticUpdate u).intoOptimisticUpdate = u) ∧
    (∀ r : UpdatesResponse,
      UpdatesResponse.deserialize_from_bytes
        (serUpdatesResponseSerde (UpdatesResponse.intoSerde r)) = .ok r) := by
  refine ⟨fun u => rfl, fun u => rfl, fun u => rfl, fun r => ?_⟩
  have hb := bcsFromBytes_ser (UpdatesResponse.intoSerde r)
  simp only [UpdatesResponse.deserialize_from_bytes, hb, fromSerde_intoSerde]

/-- C2: normalisation into `GenericUpdate` sets exactly the optional
fields the concrete message type lacks to `None`, copies the present
optional fields as `Some`, and copies the shared fields unchanged. -/
theorem generic_update_normalisation :
    (∀ u : Update,
      (GenericUpdate.fromUpdate u).attested_header = u.attested_header ∧
      (GenericUpdate.fromUpdate u).sync_aggregate = u.sync_aggregate ∧
      (GenericUpdate.fromUpdate u).signature_slot = u.signature_slot ∧
      (GenericUpdate.fromUpdate u).next_sync_committee = some u.next_sync_committee ∧
      (GenericUpdate.fromUpdate u).next_sync_committee_branch
        = some u.next_sync_committee_branch ∧
      (GenericUpdate.fromUpdate u).finalized_header = some u.finalized_header ∧
      (GenericUpdate.fromUpdate u).finality_branch = some u.finality_branch) ∧
    (∀ u : FinalityUpdate,
      (GenericUpdate.fromFinalityUpdate u).attested_header = u.attested_header ∧
      (GenericUpdate.fromFinalityUpdate u).sync_aggregate = u.sync_aggregate ∧
      (GenericUpdate.fromFinalityUpdate u).signature_slot = u.signature_slot ∧
      (GenericUpdate.fromFinalityUpdate u).next_sync_committee = none ∧
      (GenericUpdate.fromFinalityUpdate u).next_sync_committee_branch = none ∧
      (GenericUpdate.fromFinalityUpdate u).finalized_header = some u.finalized_header ∧
      (GenericUpdate.fromFinalityUpdate u).finality_branch = some u.finality_branch) ∧
    (∀ u : OptimisticUpdate,
      (GenericUpdate.fromOptimisticUpdate u).attested_header = u.attested_header ∧
      (GenericUpdate.fromOptimisticUpdate u).sync_aggregate = u.sync_aggregate ∧
      (GenericUpdate.fromOptimisticUpdate u).signature_slot = u.signature_slot ∧
      (GenericUpdate.fromOptimisticUpdate u).next_sync_committee = none ∧
      (GenericUpdate.fromOptimisticUpdate u).next_sync_committee_branch = none ∧
      (GenericUpdate.fromOptimisticUpdate u).finalized_header = none ∧
      (GenericUpdate.fromOptimisticUpdate u).finality_branch = none) :=
  ⟨fun _ => ⟨rfl, rfl, rfl, rfl, rfl, rfl, rfl⟩,
   fun _ => ⟨rfl, rfl, rfl, rfl, rfl, rfl, rfl⟩,
   fun _ => ⟨rfl, rfl, rfl, rfl, rfl, rfl, rfl⟩⟩

/-- C3 counterexample: `Update` derives its deserialiser without
`deny_unknown_fields`, so an input object carrying every declared field
plus an unknown field decodes successfully instead of failing — the claim
that every verbose-ingress message type rejects unknown fields is false. -/
theorem update_decode_accepts_unknown_field :
    (decodeUpdate (Json.obj
      [("attested_header", Json.null), ("next_sync_committee", Json.null),
       ("next_sync_committee_branch", Json.null), ("finalized_header", Json.null),
       ("finality_branch", Json.null), ("sync_aggregate", Json.null),
       ("signature_slot", Json.null), ("unexpected_field", Json.null)])).isSome
      = true := by decide

/-- C3 (amended): only the fork-variant bodies (the per-fork
`BeaconBlockBody` and `ExecutionPayload` variant structs, which carry
`deny_unknown_fields`) reject input with unknown field names; the
top-level ingress messages (`Bootstrap`, `Update`, `FinalityUpdate`,
`OptimisticUpdate`) ignore unknown fields: their decode succeeds exactly
when every declared field is present, whatever else the object carries. -/
theorem unknown_field_handling :
    (∀ (fields : List (String × Json)) (k : String),
      k ∈ fields.map Prod.fst → ¬ k ∈ beaconBlockBodyDenebFields →
      decodeBeaconBlockBody (Json.obj fields) = none) ∧
    (∀ (fields : List (String × Json)) (k : String),
      k ∈ fields.map Prod.fst → ¬ k ∈ executionPayloadDenebFields →
      decodeExecutionPayload (Json.obj fields) = none) ∧
    (∀ fields : List (String × Json),
      (decodeBootstrap (Json.obj fields)).isSome
        = bootstrapFields.all (fun key => (getField fields key).isSome)) ∧
    (∀ fields : List (String × Json),
      (decodeUpdate (Json.obj fields)).isSome
        = updateFields.all (fun key => (getField fields key).isSome)) ∧
    (∀ fields : List (String × Json),
      (decodeFinalityUpdate (Json.obj fields)).isSome
        = finalityUpdateFields.all (fun key => (getField fields key).isSome)) ∧
    (∀ fields : List (String × Json),
      (decodeOptimisticUpdate (Json.obj fields)).isSome
        = optimisticUpdateFields.all (fun key => (getField fields key).isSome)) := by
  refine ⟨?_, ?_, ?_, ?_, ?_, ?_⟩
  · intro fields k hk hden
    have hcap : ¬ k ∈ beaconBlockBodyCapellaFields := fun h => by
      have : beaconBlockBodyDenebFields
          = beaconBlockBodyCapellaFields ++ ["blob_kzg_commitments"] := rfl
      exact hden (this ▸ List.mem_append_left _ h)
    have hbel : ¬ k ∈ beaconBlockBodyBellatrixFields := fun h => by
      have : beaconBlockBodyCapellaFields
          = beaconBlockBodyBellatrixFields ++ ["bls_to_execution_changes"] := rfl
      exact hcap (this ▸ List.mem_append_left _ h)
    rw [decodeBeaconBlockBody,
      decodeStruct_strict_unknown _ fields k hk hbel,
      decodeStruct_strict_unknown _ fields k hk hcap,
      decodeStruct_strict_unknown _ fields k hk hden]
  · intro fields k hk hden
    have hcap : ¬ k ∈ executionPayloadCapellaFields := fun h => by
      have : executionPayloadDenebFields
          = executionPayloadCapellaFields ++ ["blob_gas_used", "excess_blob_gas"] := rfl
      exact hden (this ▸ List.mem_append_left _ h)
    have hbel : ¬ k ∈ executionPayloadBellatrixFields := fun h => by
      have : executionPayloadCapellaFields
          = executionPayloadBellatrixFields ++ ["withdrawals"] := rfl
      exact hcap (this ▸ List.mem_append_left _ h)
    rw [decodeExecutionPayload,
      decodeStruct_strict_unknown _ fields k hk hbel,
      decodeStruct_strict_unknown _ fields k hk hcap,
      decodeStruct_strict_unknown _ fields k hk hden]
  · exact fun fields => decodeStruct_lax_isSome bootstrapFields fields
  · exact fun fields => decodeStruct_lax_isSome updateFields fields
  · exact fun fields => decodeStruct_lax_isSome finalityUpdateFields fields
  · exact fun fields => decodeStruct_lax_isSome optimisticUpdateFields fields

/-- Witness for the amended C3 theorem at a concrete object carrying one
unknown field name. -/
theorem unknown_field_handling_witness :
    ("mystery" ∈ ([("mystery", Json.null)].map Prod.fst) ∧
      ¬ "mystery" ∈ beaconBlockBodyDenebFields) ∧
    decodeBeaconBlockBody (Json.obj [("mystery", Json.null)]) = none ∧
    decodeExecutionPayload (Json.obj [("mystery", Json.null)]) = none :=
  ⟨⟨by decide, by decide⟩,
   unknown_field_handling.1 [("mystery", Json.null)] "mystery" (by decide) (by decide),
   unknown_field_handling.2.1 [("mystery", Json.null)] "mystery" (by decide) (by decide)⟩

/-- C4 counterexample: default construction of the fork-dependent records
is implemented unconditionally (`impl Default`, not test-gated), so a
record is obtained without any fork resolution: both defaults produce the
`Bellatrix` variant with defaulted fields, independent of any slot. -/
theorem default_construction_exists :
    BeaconBlockBody.default
      = BeaconBlockBody.bellatrix BeaconBlockBodyBellatrix.default ∧
    ExecutionPayload.default
      = ExecutionPayload.bellatrix ExecutionPayloadBellatrix.default :=
  ⟨rfl, rfl⟩

/-- C4 (amended): default construction of fork-dependent records is
available to any caller (the `Default` impls are production code); it
bypasses fork resolution and always yields the `Bellatrix` variant. -/
theorem default_construction_is_bellatrix :
    (∃ b : BeaconBlockBodyBellatrix, BeaconBlockBody.default = .bellatrix b) ∧
    (∃ p : ExecutionPayloadBellatrix, ExecutionPayload.default = .bellatrix p) :=
  ⟨⟨_, rfl⟩, ⟨_, rfl⟩⟩

/-- C5: the fork-variant record types have exactly the variants
Bellatrix, Capella, Deneb, and each later variant's field list is the
previous variant's field list plus only trailing additions. -/
theorem variant_superset_chain :
    beaconBlockBodyCapellaFields
      = beaconBlockBodyBellatrixFields ++ ["bls_to_execution_changes"] ∧
    beaconBlockBodyDenebFields
      = beaconBlockBodyCapellaFields ++ ["blob_kzg_commitments"] ∧
    executionPayloadCapellaFields
      = executionPayloadBellatrixFields ++ ["withdrawals"] ∧
    executionPayloadDenebFields
      = executionPayloadCapellaFields ++ ["blob_gas_used", "excess_blob_gas"] ∧
    (∀ b : BeaconBlockBody,
      (∃ x, b = .bellatrix x) ∨ (∃ x, b = .capella x) ∨ (∃ x, b = .deneb x)) ∧
    (∀ p : ExecutionPayload,
      (∃ x, p = .bellatrix x) ∨ (∃ x, p = .capella x) ∨ (∃ x, p = .deneb x)) := by
  refine ⟨rfl, rfl, rfl, rfl, fun b => ?_, fun p => ?_⟩
  · cases b with
    | bellatrix x => exact Or.inl ⟨x, rfl⟩
    | capella x => exact Or.inr (Or.inl ⟨x, rfl⟩)
    | deneb x => exact Or.inr (Or.inr ⟨x, rfl⟩)
  · cases p with
    | bellatrix x => exact Or.inl ⟨x, rfl⟩
    | capella x => exact Or.inr (Or.inl ⟨x, rfl⟩)
    | deneb x => exact Or.inr (Or.inr ⟨x, rfl⟩)

/-- C6: reading a later-fork-only field from an earlier-variant record
returns an error rather than a defaulted value, for every such field of
`BeaconBlockBody` and `ExecutionPayload`. -/
theorem partial_field_access_errors :
    (∀ b : BeaconBlockBodyBellatrix,
      (BeaconBlockBody.bellatrix b).bls_to_execution_changes
        = .error .unsupportedForkVariant ∧
      (BeaconBlockBody.bellatrix b).blob_kzg_commitments
        = .error .unsupportedForkVariant) ∧
    (∀ b : BeaconBlockBodyCapella,
      (BeaconBlockBody.capella b).blob_kzg_commitments
        = .error .unsupportedForkVariant) ∧
    (∀ p : ExecutionPayloadBellatrix,
      (ExecutionPayload.bellatrix p).withdrawals = .error .unsupportedForkVariant ∧
      (ExecutionPayload.bellatrix p).blob_gas_used = .error .unsupportedForkVariant ∧
      (ExecutionPayload.bellatrix p).excess_blob_gas = .error .unsupportedForkVariant) ∧
    (∀ p : ExecutionPayloadCapella,
      (ExecutionPayload.capella p).blob_gas_used = .error .unsupportedForkVariant ∧
      (ExecutionPayload.capella p).excess_blob_gas = .error .unsupportedForkVariant) :=
  ⟨fun _ => ⟨rfl, rfl⟩, fun _ => rfl, fun _ => ⟨rfl, rfl, rfl⟩, fun _ => ⟨rfl, rfl⟩⟩

/-- C7: the quorum check sits exactly at `floor(2/3 * 512) = 341`
participating bits: 341 bits pass the quorum check, while an update with
340 bits that passes the ordering check is rejected by `apply_update`
with `InsufficientSignatures` (the `Except` error carries no state, so
the caller's store is untouched). -/
theorem quorum_boundary :
    (∀ a : SyncAggregate, a.countBits = 341 → quorumCheck a = .ok ()) ∧
    (∀ (ops : CryptoOps) (store : LightClientStore) (u : GenericUpdate),
      orderingOk store u = true → u.sync_aggregate.countBits = 340 →
      applyUpdate ops store u = .error .insufficientSignatures) := by
  constructor
  · intro a ha
    simp [quorumCheck, ha]
  · intro ops store u hOrd h340
    have hq : quorumCheck u.sync_aggregate = .error .insufficientSignatures := by
      simp [quorumCheck, h340]
    simp [applyUpdate, hOrd, hq]

/-- Witness for the quorum boundary at concrete aggregates with 341 and
340 participating bits. -/
theorem quorum_boundary_witness :
    demoAggregate341.countBits = 341 ∧
    orderingOk demoStore demoUpdate340 = true ∧
    demoUpdate340.sync_aggregate.countBits = 340 ∧
    quorumCheck demoAggregate341 = .ok () ∧
    applyUpdate demoOps demoStore demoUpdate340 = .error .insufficientSignatures :=
  ⟨by decide, by decide, by decide,
   quorum_boundary.1 demoAggregate341 (by decide),
   quorum_boundary.2 demoOps demoStore demoUpdate340 (by decide) (by decide)⟩

/-- C8: every `SyncCommittee` holds exactly 512 member public keys plus
one 48-byte aggregate public key, and every `SyncAggregate` holds exactly
a 512-bit participation vector plus one 96-byte aggregate signature; the
sizes are enforced by the types, so every operation preserves them. -/
theorem sync_committee_fixed_sizes :
    (∀ c : SyncCommittee,
      c.pubkeys.val.length = 512 ∧ c.aggregate_pubkey.val.length = 48) ∧
    (∀ a : SyncAggregate,
      a.sync_committee_bits.val.length = 512 ∧
      a.sync_committee_signature.val.length = 96) :=
  ⟨fun c => ⟨c.pubkeys.property, c.aggregate_pubkey.property⟩,
   fun a => ⟨a.sync_committee_bits.property, a.sync_committee_signature.property⟩⟩

/-- C9: both `Default` impls return the Bellatrix (earliest-fork) variant
with all fields at their default values; the construction takes no slot,
so the variant is fixed independently of any slot. -/
theorem default_is_bellatrix_defaults :
    BeaconBlockBody.default = BeaconBlockBody.bellatrix
      { randao_reveal := ByteVector.default 96
        eth1_data := Eth1Data.default
        graffiti := ByteVector.default 32
        proposer_slashings := SSZList.default _ 16
        attester_slashings := SSZList.default _ 2
        attestations := SSZList.default _ 128
        deposits := SSZList.default _ 16
        voluntary_exits := SSZList.default _ 16
        sync_aggregate := SyncAggregate.default
        execution_payload := ExecutionPayload.bellatrix ExecutionPayloadBellatrix.default } ∧
    ExecutionPayload.default = ExecutionPayload.bellatrix
      { parent_hash := ByteVector.default 32
        fee_recipient := ByteVector.default 20
        state_root := ByteVector.default 32
        receipts_root := ByteVector.default 32
        logs_bloom := ByteVector.default 256
        prev_randao := ByteVector.default 32
        block_number := 0
        gas_limit := 0
        gas_used := 0
        timestamp := 0
        extra_data := ByteList.default 32
        base_fee_per_gas := 0
        block_hash := ByteVector.default 32
        transactions := SSZList.default _ 1048576 } :=
  ⟨rfl, rfl⟩

/-- C10: payload contents are bounded by the type-level limits: a
transaction holds at most 1073741824 bytes, a payload's transaction list
holds at most 1048576 transactions, and its extra data holds at most 32
bytes, in every variant. -/
theorem payload_type_level_bounds :
    (∀ t : Transaction, t.val.length ≤ 1073741824) ∧
    (∀ p : ExecutionPayload,
      (ExecutionPayload.transactions p).val.length ≤ 1048576 ∧
      (ExecutionPayload.extra_data p).val.length ≤ 32) := by
  refine ⟨fun t => t.property, fun p => ?_⟩
  cases p with
  | bellatrix q => exact ⟨q.transactions.property, q.extra_data.property⟩
  | capella q => exact ⟨q.transactions.property, q.extra_data.property⟩
  | deneb q => exact ⟨q.transactions.property, q.extra_data.property⟩

end Helios
